import Mathlib

/-!
Shallow embedding of `src/backend/server.py` (AI Model Training Platform):
data model, file ingestion, credential flow and the CRUD/predict handlers,
with theorems checking the natural-language specification against it.

External collaborators (MongoDB driver, bcrypt, PyJWT, the hosted chat
API, FastAPI routing) are modelled at their interface boundary, as the
spec prescribes: collections become Lean lists with first-match lookup
(`find_one` / `update_one` touch the first matching record in insertion
order), delegate calls become an explicit outcome parameter, and errors
become explicit `HTTPError` values carrying status code and detail.
-/

/-- An HTTP error as raised by `HTTPException(status_code, detail)`. -/
structure HTTPError where
  status : Nat
  detail : String
deriving DecidableEq, Repr

/-- JSON values as produced by `json.loads`; objects keep their key order
and, as in a Python dict after parsing, have pairwise-distinct keys (we
count keys up to duplication to stay faithful regardless). -/
inductive Json where
  | null : Json
  | bool (b : Bool) : Json
  | num (n : Int) : Json
  | str (s : String) : Json
  | arr (xs : List Json) : Json
  | obj (fields : List (String × Json)) : Json

/-- Python's `value.keys()`: succeeds only on a dict (`AttributeError`,
hence `None` here, on anything else). -/
def pyKeys : Json → Option (List String)
  | Json.obj fs => some (fs.map Prod.fst)
  | _ => none

/-- `len(d.keys())` for a parsed JSON dict: number of distinct keys. -/
def keyCount (fs : List (String × Json)) : Nat :=
  (fs.map Prod.fst).eraseDups.length

/-- Result shape of `process_uploaded_data`: full rows, bounded preview,
column and row counts. -/
structure Processed where
  data : List Json
  preview : List Json
  column_count : Nat
  row_count : Nat

/-- The error raised at `server.py:174` when processing throws. -/
def processError : HTTPError := ⟨400, "Error processing file"⟩

/-- The `json` branch of `process_uploaded_data` (`server.py:143-159`).
The argument is the result of `json.loads` on the decoded bytes; `none`
means the payload was malformed (the raised exception is caught at line
173 and surfaces as HTTP 400). A list payload takes `data[0].keys()`
when non-empty (an `AttributeError` on a non-dict head also lands in the
except-clause); a non-list payload takes `data.keys()` likewise. -/
def processJsonUpload : Option Json → Except HTTPError Processed
  | none => .error processError
  | some d =>
    match d with
    | Json.arr xs =>
      match xs with
      | [] => .ok ⟨[], [], 0, 0⟩
      | x :: _ =>
        match pyKeys x with
        | none => .error processError
        | some ks => .ok ⟨xs, xs.take 5, ks.eraseDups.length, xs.length⟩
    | _ =>
      match pyKeys d with
      | none => .error processError
      | some ks => .ok ⟨[d], [d], ks.eraseDups.length, 1⟩

/-- Python whitespace for `str.strip()` (ASCII part; the handled uploads
are text, and every claim's input is ASCII). -/
def isPySpace (c : Char) : Bool :=
  c = ' ' ∨ c = '\t' ∨ c = '\n' ∨ c = '\r' ∨ c = '\x0b' ∨ c = '\x0c'

/-- Python truthiness of `line.strip()`: the line has a non-space char. -/
def nonBlank (line : String) : Bool :=
  line.data.any (fun c => ! isPySpace c)

/-- Splitting a character list on `'\n'`, keeping empty pieces, exactly
as Python's `str.split('\n')` does. -/
def splitCharsAux : List Char → List Char → List (List Char)
  | [], acc => [acc.reverse]
  | c :: cs, acc =>
    if c = '\n' then acc.reverse :: splitCharsAux cs []
    else splitCharsAux cs (c :: acc)

/-- `text_content.split('\n')`. -/
def splitLines (s : String) : List String :=
  (splitCharsAux s.data []).map String.mk

/-- The record `{"text": line}` built for each kept line. -/
def textRecord (line : String) : Json :=
  Json.obj [("text", Json.str line)]

/-- The `txt` branch of `process_uploaded_data` (`server.py:160-170`):
split on newlines, keep the non-blank lines in order as `{"text": line}`
records; `column_count` is fixed at 1. -/
def processTxtUpload (text_content : String) : Except HTTPError Processed :=
  let data := ((splitLines text_content).filter nonBlank).map textRecord
  .ok ⟨data, data.take 5, 1, data.length⟩

example : processJsonUpload (some (Json.arr [Json.obj [("a", Json.num 1)],
    Json.obj [("a", Json.num 2)], Json.obj [("a", Json.num 3)]])) =
    .ok ⟨[Json.obj [("a", Json.num 1)], Json.obj [("a", Json.num 2)],
      Json.obj [("a", Json.num 3)]],
      [Json.obj [("a", Json.num 1)], Json.obj [("a", Json.num 2)],
      Json.obj [("a", Json.num 3)]], 1, 3⟩ := rfl

example : processTxtUpload "line1\n\nline2" =
    .ok ⟨[textRecord "line1", textRecord "line2"],
      [textRecord "line1", textRecord "line2"], 1, 2⟩ := rfl

example : processJsonUpload (some (Json.arr [])) = .ok ⟨[], [], 0, 0⟩ := rfl

example : processJsonUpload (some (Json.arr [Json.num 1, Json.num 2, Json.num 3])) =
    .error processError := rfl

/-! ## Persistent records (`server.py:42-100`) and the document store.

The four MongoDB collections become Lean lists kept in insertion order:
`insert_one` appends, `find_one` returns the first match, `find` returns
all matches (the handlers cap materialisation at 1000 via `to_list`),
`update_one` modifies the first match and is a no-op when none matches. -/

structure UserRec where
  id : String
  email : String
  name : String
  password : String
deriving DecidableEq, Repr

structure DatasetRec where
  id : String
  name : String
  user_id : String
  file_type : String
  file_size : Nat
  data_preview : List Json
  column_count : Nat
  row_count : Nat
  full_data : List Json

structure TrainingRec where
  id : String
  name : String
  user_id : String
  dataset_id : String
  status : String
  custom_prompt : String
  training_data : List Json

structure DeployedRec where
  id : String
  name : String
  user_id : String
  training_id : String
  api_endpoint : String
  status : String
  usage_count : Nat
deriving DecidableEq, Repr

structure DB where
  users : List UserRec
  datasets : List DatasetRec
  model_trainings : List TrainingRec
  deployed_models : List DeployedRec

/-! ## Credential store (`server.py:103-128`). bcrypt and the JWT
signing primitive are external libraries; per the spec they are "treated
as trusted library calls", so they are modelled at their contract:
hashing is deterministic and collision-free, and only the server signs
tokens. A fresh UUID is nondeterministic input and becomes a `newId`
argument to each creating handler. Timestamps are seconds as `Nat`. -/

def hash_password (password : String) : String :=
  "bcrypt$" ++ password

def verify_password (password hashed : String) : Bool :=
  hashed == hash_password password

structure TokenPayload where
  user_id : String
  exp : Nat
deriving DecidableEq, Repr

/-- `create_access_token` (`server.py:109-111`): payload carries the user
id and an expiry 7 days (3600*24*7 seconds) past issuance. -/
def create_access_token (user_id : String) (now : Nat) : TokenPayload :=
  ⟨user_id, now + 3600 * 24 * 7⟩

/-- A bearer token as presented by a caller: either garbage / wrongly
signed, or a payload carrying the server's signature. -/
inductive Token where
  | malformed : Token
  | signed (payload : TokenPayload) : Token
deriving DecidableEq, Repr

inductive JwtError where
  | expiredSignature : JwtError
  | invalidToken : JwtError
deriving DecidableEq, Repr

/-- Modelled from the spec: `jwt.decode` (the external PyJWT library is
not under `src/`). Per the spec, `authenticate` "verifies signature and
expiry (7-day lifetime from issuance)" and "a token issued at time T is
accepted for reads until T+7days and rejected after": a malformed or
foreign-signed token fails as invalid; a server-signed token fails as
expired when verified strictly after its expiry instant and yields its
payload otherwise. -/
def jwtDecode (credentials : Token) (now : Nat) : Except JwtError TokenPayload :=
  match credentials with
  | Token.malformed => .error JwtError.invalidToken
  | Token.signed p => if p.exp < now then .error JwtError.expiredSignature else .ok p

/-- `get_current_user` (`server.py:113-128`): decode, reject falsy
user_id, resolve the user; each failure mode maps to 401 with the
detail string the code raises. -/
def get_current_user (db : DB) (credentials : Token) (now : Nat) :
    Except HTTPError UserRec :=
  match jwtDecode credentials now with
  | .error JwtError.expiredSignature => .error ⟨401, "Token expired"⟩
  | .error JwtError.invalidToken => .error ⟨401, "Invalid token"⟩
  | .ok payload =>
    if payload.user_id = "" then .error ⟨401, "Invalid token"⟩
    else
      match db.users.find? (fun u => u.id == payload.user_id) with
      | none => .error ⟨401, "User not found"⟩
      | some user_data => .ok user_data

structure AuthResponse where
  access_token : TokenPayload
  user : UserRec
deriving DecidableEq, Repr

/-- `register` (`server.py:177-195`): duplicate email is rejected with
400 before any write; otherwise the user is stored with the salted hash
and a fresh token is returned. -/
def register (db : DB) (newId email password name : String) (now : Nat) :
    Except HTTPError (DB × AuthResponse) :=
  match db.users.find? (fun u => u.email == email) with
  | some _ => .error ⟨400, "Email already registered"⟩
  | none =>
    let user : UserRec := ⟨newId, email, name, hash_password password⟩
    .ok ({ db with users := db.users ++ [user] },
         ⟨create_access_token newId now, user⟩)

/-- `login` (`server.py:197-207`): absent email and hash mismatch share
one 401 error; success returns a freshly signed token. -/
def login (db : DB) (email password : String) (now : Nat) :
    Except HTTPError AuthResponse :=
  match db.users.find? (fun u => u.email == email) with
  | none => .error ⟨401, "Invalid email or password"⟩
  | some user_data =>
    if verify_password password user_data.password then
      .ok ⟨create_access_token user_data.id now, user_data⟩
    else .error ⟨401, "Invalid email or password"⟩

/-! ## Dataset routes (`server.py:210-251`). -/

/-- The `Dataset` response model: what a client ever sees of a stored
dataset — `full_data` is not a field of it. -/
structure DatasetPublic where
  id : String
  name : String
  user_id : String
  file_type : String
  file_size : Nat
  data_preview : List Json
  column_count : Nat
  row_count : Nat

/-- Projection applied on every read path (`server.py:251` keeps every
key except `full_data`; `server.py:246` returns the model that never had
it). -/
def DatasetRec.toPublic (d : DatasetRec) : DatasetPublic :=
  ⟨d.id, d.name, d.user_id, d.file_type, d.file_size,
   d.data_preview, d.column_count, d.row_count⟩

def allowed_types : List String := ["csv", "json", "txt"]

/-- `upload_dataset` (`server.py:210-246`): extension must be allowed,
the ingested result's preview/counts go into the `Dataset` record, and
the stored document additionally carries the full rows under
`full_data`. `processed` is the outcome of `process_uploaded_data` on
the file's bytes (its error propagates to the caller unchanged). -/
def upload_dataset (db : DB) (newId : String) (current_user : UserRec)
    (name file_extension : String) (file_size : Nat)
    (processed : Except HTTPError Processed) :
    Except HTTPError (DB × DatasetPublic) :=
  if file_extension ∈ allowed_types then
    match processed with
    | .error e => .error e
    | .ok pd =>
      let dataset : DatasetRec := ⟨newId, name, current_user.id, file_extension,
        file_size, pd.preview, pd.column_count, pd.row_count, pd.data⟩
      .ok ({ db with datasets := db.datasets ++ [dataset] }, dataset.toPublic)
  else .error ⟨400, "File type not supported"⟩

/-- `get_datasets` (`server.py:248-251`): the caller's datasets (first
1000), each stripped of `full_data`. -/
def get_datasets (db : DB) (current_user : UserRec) : List DatasetPublic :=
  (((db.datasets.filter (fun d => d.user_id == current_user.id)).take 1000).map
    DatasetRec.toPublic)

/-! ## Model training, testing, deployment, prediction, dashboard
(`server.py:254-390`). The hosted chat API is an external collaborator:
its per-call outcome (generated text, or a raised exception's message)
is a `DelegateOutcome` argument, and the measured wall-clock duration an
`elapsed` argument. -/

/-- `train_model` (`server.py:254-281`): the dataset lookup is scoped by
id AND owner; the record is created already `completed` with the first
100 stored rows copied in. -/
def train_model (db : DB) (newId : String) (current_user : UserRec)
    (dataset_id model_name custom_prompt : String) :
    Except HTTPError (DB × TrainingRec) :=
  match db.datasets.find? (fun d => d.id == dataset_id &&
      d.user_id == current_user.id) with
  | none => .error ⟨404, "Dataset not found"⟩
  | some dataset_data =>
    let training : TrainingRec := ⟨newId, model_name, current_user.id, dataset_id,
      "completed", custom_prompt, dataset_data.full_data.take 100⟩
    .ok ({ db with model_trainings := db.model_trainings ++ [training] }, training)

/-- Outcome of one call to the external chat-completion service. -/
inductive DelegateOutcome where
  | success (output : String) : DelegateOutcome
  | failure (message : String) : DelegateOutcome
deriving DecidableEq, Repr

structure ModelTestResponse where
  output : String
  confidence : ℚ
  processing_time : ℚ
deriving DecidableEq, Repr

/-- `test_model` (`server.py:289-328`): owner-scoped model lookup, then
the configured-key check, then one delegate call; output is returned
verbatim with the fabricated confidence 0.95. -/
def test_model (db : DB) (model_id input_text : String) (current_user : UserRec)
    (google_api_key : Option String) (delegate : DelegateOutcome) (elapsed : ℚ) :
    Except HTTPError ModelTestResponse :=
  match db.model_trainings.find? (fun m => m.id == model_id &&
      m.user_id == current_user.id) with
  | none => .error ⟨404, "Model not found"⟩
  | some _ =>
    match google_api_key with
    | none => .error ⟨500, "Google API key not configured"⟩
    | some _ =>
      match delegate with
      | .failure msg => .error ⟨500, "Error testing model: " ++ msg⟩
      | .success out => .ok ⟨out, 0.95, elapsed⟩

/-- `deploy_model` (`server.py:331-351`): owner-scoped model lookup; the
deployment starts `active` with `usage_count = 0`. -/
def deploy_model (db : DB) (newId : String) (model_id : String)
    (current_user : UserRec) : Except HTTPError (DB × DeployedRec) :=
  match db.model_trainings.find? (fun m => m.id == model_id &&
      m.user_id == current_user.id) with
  | none => .error ⟨404, "Model not found"⟩
  | some model_data =>
    let deployment : DeployedRec := ⟨newId, model_data.name ++ "-api",
      current_user.id, model_id, "/models/" ++ model_id ++ "/predict", "active", 0⟩
    .ok ({ db with deployed_models := db.deployed_models ++ [deployment] }, deployment)

/-- `get_deployed_models` (`server.py:353-356`). -/
def get_deployed_models (db : DB) (current_user : UserRec) : List DeployedRec :=
  (db.deployed_models.filter (fun d => d.user_id == current_user.id)).take 1000

/-- The store's `update_one` with filter `{training_id, user_id}` and
`{$inc: {usage_count: 1}}` (`server.py:366-369`): increments the first
matching record; a no-op when nothing matches. -/
def incUsage : List DeployedRec → String → String → List DeployedRec
  | [], _, _ => []
  | d :: rest, tid, uid =>
    if d.training_id == tid && d.user_id == uid then
      { d with usage_count := d.usage_count + 1 } :: rest
    else d :: incUsage rest tid uid

/-- `predict` (`server.py:359-372`): unconditionally fire the usage
increment, then run the same testing logic; the store mutation persists
whatever `test_model` then returns. -/
def predict (db : DB) (model_id input_text : String) (current_user : UserRec)
    (google_api_key : Option String) (delegate : DelegateOutcome) (elapsed : ℚ) :
    DB × Except HTTPError ModelTestResponse :=
  let db2 := { db with
    deployed_models := incUsage db.deployed_models model_id current_user.id }
  (db2, test_model db2 model_id input_text current_user google_api_key delegate elapsed)

structure DashboardStats where
  datasets : Nat
  models : Nat
  deployed : Nat
  api_calls : Nat
deriving DecidableEq, Repr

/-- `get_dashboard_stats` (`server.py:375-390`): per-owner counts, and
`api_calls` sums `usage_count` over the caller's deployments (the first
1000, the `to_list` cap). -/
def get_dashboard_stats (db : DB) (current_user : UserRec) : DashboardStats :=
  ⟨(db.datasets.filter (fun d => d.user_id == current_user.id)).length,
   (db.model_trainings.filter (fun m => m.user_id == current_user.id)).length,
   (db.deployed_models.filter (fun d => d.user_id == current_user.id)).length,
   (((db.deployed_models.filter (fun d => d.user_id == current_user.id)).take 1000).map
     (fun d => d.usage_count)).sum⟩

/-! ## Helper lemmas shared by the claim theorems. -/

/-- The bcrypt contract in this model: a password verifies against a
stored hash exactly when it is the hashed password. -/
theorem verify_password_hash_iff (p q : String) :
    verify_password q (hash_password p) = true ↔ q = p := by
  unfold verify_password hash_password
  constructor
  · intro h
    have h2 : "bcrypt$" ++ p = "bcrypt$" ++ q := beq_iff_eq.mp h
    have h3 := String.data_eq_of_eq h2
    simp only [String.data_append] at h3
    exact (String.ext (List.append_cancel_left h3)).symm
  · intro h; subst h; exact beq_iff_eq.mpr rfl

/-! ## Claim theorems. -/

/-- C6: a json upload parsing to a list of objects yields rows = that
list, row_count = its length, column_count = the first element's key
count (zero for the empty list), preview = the first 5 rows; a single
object yields that one row with its key count; malformed JSON fails
with BadInput (status 400); and `[{"a":1},{"a":2},{"a":3}]` yields
column_count = 1 and row_count = 3. -/
theorem spec_c6_json_ingestion :
    (∀ xs : List Json, (∀ x ∈ xs, ∃ fs, x = Json.obj fs) →
      ∃ pr, processJsonUpload (some (Json.arr xs)) = .ok pr ∧
        pr.data = xs ∧ pr.row_count = xs.length ∧ pr.preview = xs.take 5 ∧
        ((xs = [] ∧ pr.column_count = 0) ∨
          (∃ fs tl, xs = Json.obj fs :: tl ∧ pr.column_count = keyCount fs)))
    ∧ (∀ fs, processJsonUpload (some (Json.obj fs)) =
        .ok ⟨[Json.obj fs], [Json.obj fs], keyCount fs, 1⟩)
    ∧ processJsonUpload none = .error processError
    ∧ processError.status = 400
    ∧ (∃ pr, processJsonUpload (some (Json.arr [Json.obj [("a", Json.num 1)],
          Json.obj [("a", Json.num 2)], Json.obj [("a", Json.num 3)]])) = .ok pr ∧
        pr.column_count = 1 ∧ pr.row_count = 3) := by
  refine ⟨?_, ?_, rfl, rfl, ⟨_, rfl, rfl, rfl⟩⟩
  · intro xs h
    match xs, h with
    | [], _ => exact ⟨⟨[], [], 0, 0⟩, rfl, rfl, rfl, rfl, Or.inl ⟨rfl, rfl⟩⟩
    | x :: tl, h =>
      obtain ⟨fs, rfl⟩ := h x (List.mem_cons_self x tl)
      exact ⟨_, rfl, rfl, rfl, rfl, Or.inr ⟨fs, tl, rfl, rfl⟩⟩
  · intro fs; rfl

/-- C7: a txt upload is split on line breaks; each non-blank line
becomes exactly one `{text: line}` record, in order; blank lines are
skipped; column_count = 1 and row_count = the number of non-blank
lines; `"line1\n\nline2"` yields row_count = 2. -/
theorem spec_c7_txt_ingestion :
    (∀ s : String, ∃ pr, processTxtUpload s = .ok pr ∧
      pr.data = ((splitLines s).filter nonBlank).map textRecord ∧
      pr.row_count = ((splitLines s).filter nonBlank).length ∧
      pr.column_count = 1 ∧ pr.preview = pr.data.take 5)
    ∧ (∃ pr, processTxtUpload "line1\n\nline2" = .ok pr ∧ pr.row_count = 2 ∧
        pr.data = [textRecord "line1", textRecord "line2"]) := by
  constructor
  · intro s
    exact ⟨_, rfl, rfl, by simp [processTxtUpload], rfl, rfl⟩
  · exact ⟨_, rfl, rfl, rfl⟩

/-- The acceptance condition as claim C10 words it: the top-level parsed
value is an object, or a list whose first element is an object. -/
def claimJsonAccepted : Json → Bool
  | Json.obj _ => true
  | Json.arr (Json.obj _ :: _) => true
  | _ => false

/-- C10 counterexample: the empty list `[]` is well-formed JSON, is
neither an object nor a list whose first element is an object, yet the
upload is accepted (row_count = 0, column_count = 0), not rejected with
BadInput. -/
theorem spec_c10_counterexample :
    claimJsonAccepted (Json.arr []) = false ∧
    processJsonUpload (some (Json.arr [])) = .ok ⟨[], [], 0, 0⟩ :=
  ⟨rfl, rfl⟩

/-- C10 amended: a well-formed json payload whose top-level value is
neither an object, nor the empty list, nor a list whose first element
is an object, fails with BadInput (status 400). -/
theorem spec_c10_amended (v : Json) (hacc : claimJsonAccepted v = false)
    (hne : v ≠ Json.arr []) :
    processJsonUpload (some v) = .error processError := by
  match v, hacc, hne with
  | Json.null, _, _ => rfl
  | Json.bool b, _, _ => rfl
  | Json.num n, _, _ => rfl
  | Json.str s, _, _ => rfl
  | Json.arr [], _, hne => exact absurd rfl hne
  | Json.arr (Json.null :: tl), _, _ => rfl
  | Json.arr (Json.bool b :: tl), _, _ => rfl
  | Json.arr (Json.num n :: tl), _, _ => rfl
  | Json.arr (Json.str s :: tl), _, _ => rfl
  | Json.arr (Json.arr ys :: tl), _, _ => rfl
  | Json.arr (Json.obj fs :: tl), hacc, _ => simp [claimJsonAccepted] at hacc
  | Json.obj fs, hacc, _ => simp [claimJsonAccepted] at hacc

/-- C10 witness: a bare number is rejected with status 400. -/
theorem spec_c10_witness :
    processJsonUpload (some (Json.num 7)) = .error processError :=
  spec_c10_amended (Json.num 7) rfl (fun h => nomatch h)

/-- C8: a second registration with an already-registered email fails
with Conflict (400, the duplicate-email error); after a successful
registration, login with the correct password returns a token, while
login with an incorrect password, or with an absent email, fails with
Unauthorized (401). -/
theorem spec_c8_register_login :
    (∀ (db : DB) (newId email pw nm : String) (now : Nat),
      (∃ u ∈ db.users, u.email = email) →
      register db newId email pw nm now = .error ⟨400, "Email already registered"⟩)
    ∧ (∀ (db db1 : DB) (newId email pw nm : String) (now now2 : Nat)
        (resp : AuthResponse),
      register db newId email pw nm now = .ok (db1, resp) →
      (∃ u ∈ db1.users, u.email = email) ∧
      login db1 email pw now2 = .ok ⟨create_access_token resp.user.id now2, resp.user⟩ ∧
      (∀ wrong, wrong ≠ pw →
        login db1 email wrong now2 = .error ⟨401, "Invalid email or password"⟩))
    ∧ (∀ (db : DB) (email pw : String) (now : Nat),
      (∀ u ∈ db.users, u.email ≠ email) →
      login db email pw now = .error ⟨401, "Invalid email or password"⟩) := by
  refine ⟨?_, ?_, ?_⟩
  · rintro db newId email pw nm now ⟨u, hu, he⟩
    unfold register
    cases hfind : db.users.find? (fun v => v.email == email) with
    | some w => rfl
    | none =>
      rw [List.find?_eq_none] at hfind
      exact absurd (by simpa using he) (hfind u hu)
  · intro db db1 newId email pw nm now now2 resp hreg
    unfold register at hreg
    cases hfind : db.users.find? (fun v => v.email == email) with
    | some w => rw [hfind] at hreg; exact absurd hreg (by simp)
    | none =>
      rw [hfind] at hreg
      simp only [Except.ok.injEq, Prod.mk.injEq] at hreg
      obtain ⟨hdb1, hresp⟩ := hreg
      subst hdb1; subst hresp
      refine ⟨⟨_, List.mem_append_right _ (List.mem_singleton_self _), rfl⟩, ?_, ?_⟩
      · have hvtrue : verify_password pw (hash_password pw) = true :=
          (verify_password_hash_iff pw pw).mpr rfl
        unfold login
        rw [List.find?_append, hfind, Option.none_or,
          List.find?_cons_of_pos _ (by simp)]
        simp [hvtrue]
      · intro wrong hwrong
        have hv : verify_password wrong (hash_password pw) = false := by
          cases hb : verify_password wrong (hash_password pw) with
          | false => rfl
          | true => exact absurd ((verify_password_hash_iff pw wrong).mp hb) hwrong
        unfold login
        rw [List.find?_append, hfind, Option.none_or,
          List.find?_cons_of_pos _ (by simp)]
        simp [hv]
  · intro db email pw now habs
    unfold login
    rw [List.find?_eq_none.mpr (fun u hu => by simpa using habs u hu)]

/-- C5: a token issued at time T is accepted on protected endpoints at
every verification time up to T + 7 days and rejected with Unauthorized
(401) at every later time; a malformed token is rejected with 401; a
valid, unexpired token whose embedded user id resolves to no stored
user is rejected with 401. -/
theorem spec_c5_token_lifetime :
    (∀ (db : DB) (uid : String) (T now : Nat) (u : UserRec),
      uid ≠ "" → db.users.find? (fun v => v.id == uid) = some u →
      now ≤ T + 3600 * 24 * 7 →
      get_current_user db (Token.signed (create_access_token uid T)) now = .ok u)
    ∧ (∀ (db : DB) (uid : String) (T now : Nat),
      T + 3600 * 24 * 7 < now →
      get_current_user db (Token.signed (create_access_token uid T)) now =
        .error ⟨401, "Token expired"⟩)
    ∧ (∀ (db : DB) (now : Nat),
      get_current_user db Token.malformed now = .error ⟨401, "Invalid token"⟩)
    ∧ (∀ (db : DB) (uid : String) (T now : Nat),
      uid ≠ "" → db.users.find? (fun v => v.id == uid) = none →
      now ≤ T + 3600 * 24 * 7 →
      get_current_user db (Token.signed (create_access_token uid T)) now =
        .error ⟨401, "User not found"⟩) := by
  refine ⟨?_, ?_, ?_, ?_⟩
  · intro db uid T now u hne hfind hle
    simp [get_current_user, jwtDecode, create_access_token,
      Nat.not_lt.mpr hle, hne, hfind]
  · intro db uid T now hlt
    simp [get_current_user, jwtDecode, create_access_token, hlt]
  · intro db now
    rfl
  · intro db uid T now hne hfind hle
    simp [get_current_user, jwtDecode, create_access_token,
      Nat.not_lt.mpr hle, hne, hfind]

/-- C3: a record that exists but belongs to a different user yields
exactly the same 404 error — same status, same detail — as an
identifier with no record at all: for Train model (dataset reference),
Test model and Deploy model (model reference), the two runs are
indistinguishable to the caller. -/
theorem spec_c3_owner_mismatch_absence :
    (∀ (db db2 : DB) (u : UserRec) (did nid nid2 mn mn2 cp cp2 : String),
      (∃ d ∈ db.datasets, d.id = did) →
      (∀ d ∈ db.datasets, d.id = did → d.user_id ≠ u.id) →
      (∀ d ∈ db2.datasets, d.id ≠ did) →
      train_model db nid u did mn cp = .error ⟨404, "Dataset not found"⟩ ∧
      train_model db2 nid2 u did mn2 cp2 = .error ⟨404, "Dataset not found"⟩)
    ∧ (∀ (db db2 : DB) (u : UserRec) (mid inp inp2 : String)
        (key key2 : Option String) (del del2 : DelegateOutcome) (el el2 : ℚ),
      (∃ m ∈ db.model_trainings, m.id = mid) →
      (∀ m ∈ db.model_trainings, m.id = mid → m.user_id ≠ u.id) →
      (∀ m ∈ db2.model_trainings, m.id ≠ mid) →
      test_model db mid inp u key del el = .error ⟨404, "Model not found"⟩ ∧
      test_model db2 mid inp2 u key2 del2 el2 = .error ⟨404, "Model not found"⟩)
    ∧ (∀ (db db2 : DB) (u : UserRec) (mid nid nid2 : String),
      (∃ m ∈ db.model_trainings, m.id = mid) →
      (∀ m ∈ db.model_trainings, m.id = mid → m.user_id ≠ u.id) →
      (∀ m ∈ db2.model_trainings, m.id ≠ mid) →
      deploy_model db nid mid u = .error ⟨404, "Model not found"⟩ ∧
      deploy_model db2 nid2 mid u = .error ⟨404, "Model not found"⟩) := by
  refine ⟨?_, ?_, ?_⟩
  · intro db db2 u did nid nid2 mn mn2 cp cp2 _hex hown habs
    constructor
    · unfold train_model
      rw [List.find?_eq_none.mpr (fun d hd => by
        simp only [Bool.and_eq_true, beq_iff_eq, not_and]
        exact fun h1 => hown d hd h1)]
    · unfold train_model
      rw [List.find?_eq_none.mpr (fun d hd => by
        simp only [Bool.and_eq_true, beq_iff_eq, not_and]
        exact fun h1 _ => habs d hd h1)]
  · intro db db2 u mid inp inp2 key key2 del del2 el el2 _hex hown habs
    constructor
    · unfold test_model
      rw [List.find?_eq_none.mpr (fun m hm => by
        simp only [Bool.and_eq_true, beq_iff_eq, not_and]
        exact fun h1 => hown m hm h1)]
    · unfold test_model
      rw [List.find?_eq_none.mpr (fun m hm => by
        simp only [Bool.and_eq_true, beq_iff_eq, not_and]
        exact fun h1 _ => habs m hm h1)]
  · intro db db2 u mid nid nid2 _hex hown habs
    constructor
    · unfold deploy_model
      rw [List.find?_eq_none.mpr (fun m hm => by
        simp only [Bool.and_eq_true, beq_iff_eq, not_and]
        exact fun h1 => hown m hm h1)]
    · unfold deploy_model
      rw [List.find?_eq_none.mpr (fun m hm => by
        simp only [Bool.and_eq_true, beq_iff_eq, not_and]
        exact fun h1 _ => habs m hm h1)]

/-- C9: listing datasets returns only the caller's records, each a
projection of a stored record that drops `full_data`; the projection is
insensitive to the full row collection (so the full rows can never
appear in a listing); the ingested preview is always the first 5 of the
full rows; and upload stores the full rows internally next to exactly
that bounded preview. -/
theorem spec_c9_dataset_listing :
    (∀ (db : DB) (u : UserRec) (p : DatasetPublic),
      p ∈ get_datasets db u →
      p.user_id = u.id ∧ ∃ d ∈ db.datasets, d.user_id = u.id ∧ p = d.toPublic)
    ∧ (∀ (d : DatasetRec) (rows : List Json),
      DatasetRec.toPublic { d with full_data := rows } = d.toPublic)
    ∧ (∀ (j : Option Json) (pr : Processed),
      processJsonUpload j = .ok pr → pr.preview = pr.data.take 5)
    ∧ (∀ s : String, ∃ pr, processTxtUpload s = .ok pr ∧
      pr.preview = pr.data.take 5)
    ∧ (∀ (db : DB) (newId nm ext : String) (u : UserRec) (sz : Nat)
        (pd : Processed) (db1 : DB) (pub : DatasetPublic),
      upload_dataset db newId u nm ext sz (.ok pd) = .ok (db1, pub) →
      ∃ d, db1.datasets = db.datasets ++ [d] ∧ d.full_data = pd.data ∧
        d.data_preview = pd.preview ∧ d.toPublic = pub) := by
  refine ⟨?_, fun d rows => rfl, ?_, fun s => ⟨_, rfl, rfl⟩, ?_⟩
  · intro db u p hp
    unfold get_datasets at hp
    obtain ⟨d, hdmem, rfl⟩ := List.mem_map.mp hp
    have hd := List.mem_filter.mp (List.mem_of_mem_take hdmem)
    refine ⟨by simpa using hd.2, d, hd.1, by simpa using hd.2, rfl⟩
  · intro j pr h
    match j, h with
    | none, h => exact nomatch h
    | some Json.null, h => exact nomatch h
    | some (Json.bool b), h => exact nomatch h
    | some (Json.num n), h => exact nomatch h
    | some (Json.str s), h => exact nomatch h
    | some (Json.obj fs), h => cases h; rfl
    | some (Json.arr []), h => cases h; rfl
    | some (Json.arr (Json.null :: tl)), h => exact nomatch h
    | some (Json.arr (Json.bool b :: tl)), h => exact nomatch h
    | some (Json.arr (Json.num n :: tl)), h => exact nomatch h
    | some (Json.arr (Json.str s :: tl)), h => exact nomatch h
    | some (Json.arr (Json.arr ys :: tl)), h => exact nomatch h
    | some (Json.arr (Json.obj fs :: tl)), h => cases h; rfl
  · intro db newId nm ext u sz pd db1 pub h
    unfold upload_dataset at h
    split at h
    · simp only [Except.ok.injEq, Prod.mk.injEq] at h
      obtain ⟨hdb, hpub⟩ := h
      subst hdb; subst hpub
      exact ⟨_, rfl, rfl, rfl, rfl⟩
    · exact nomatch h

/-- When no stored deployment matches the filter, the `$inc` update is
a no-op on the collection. -/
theorem incUsage_eq_of_no_match (l : List DeployedRec) (tid uid : String)
    (h : ∀ d ∈ l, ¬(d.training_id = tid ∧ d.user_id = uid)) :
    incUsage l tid uid = l := by
  induction l with
  | nil => rfl
  | cons d rest ih =>
    unfold incUsage
    rw [if_neg (by simpa using h d (List.mem_cons_self d rest))]
    rw [ih (fun x hx => h x (List.mem_cons_of_mem d hx))]

/-- When the only matching deployment is the last one, the `$inc`
update increments exactly it. -/
theorem incUsage_append_match (l : List DeployedRec) (dep : DeployedRec)
    (tid uid : String)
    (h : ∀ d ∈ l, ¬(d.training_id = tid ∧ d.user_id = uid))
    (h1 : dep.training_id = tid) (h2 : dep.user_id = uid) :
    incUsage (l ++ [dep]) tid uid =
      l ++ [{ dep with usage_count := dep.usage_count + 1 }] := by
  induction l with
  | nil =>
    simp only [List.nil_append]
    unfold incUsage
    rw [if_pos (by simp [h1, h2])]
  | cons d rest ih =>
    simp only [List.cons_append]
    unfold incUsage
    rw [if_neg (by simpa using h d (List.mem_cons_self d rest))]
    rw [ih (fun x hx => h x (List.mem_cons_of_mem d hx))]

/-- C1 counterexample: with a training owned by the caller but no
deployment at all, a Predict request does not fail with NotFound — it
succeeds outright (the `update_one` increment is a silent no-op and the
handler only checks the ModelTraining). -/
def userC1 : UserRec := ⟨"u1", "alice@example.com", "Alice", hash_password "pw"⟩

def trainingC1 : TrainingRec :=
  ⟨"m1", "model", "u1", "ds1", "completed", "prompt", []⟩

def dbC1 : DB := ⟨[userC1], [], [trainingC1], []⟩

theorem spec_c1_counterexample :
    dbC1.deployed_models = [] ∧
    (predict dbC1 "m1" "hi" userC1 (some "k") (.success "out") 0).2 =
      .ok ⟨"out", 0.95, 0⟩ :=
  ⟨rfl, rfl⟩

/-- C1 amended: Predict checks no deployment precondition. It always
behaves as Test against the post-increment store; when no deployment
matches the model and caller the increment is a no-op and the request
still proceeds; it fails with NotFound exactly when no ModelTraining
with that id is owned by the caller; when a deployment matches, its
usage counter is incremented first. -/
theorem spec_c1_amended (db : DB) (mid inp : String) (u : UserRec)
    (key : Option String) (del : DelegateOutcome) (el : ℚ) :
    ((predict db mid inp u key del el).2 =
      test_model { db with deployed_models := incUsage db.deployed_models mid u.id }
        mid inp u key del el) ∧
    ((predict db mid inp u key del el).1.deployed_models =
      incUsage db.deployed_models mid u.id) ∧
    ((∀ d ∈ db.deployed_models, ¬(d.training_id = mid ∧ d.user_id = u.id)) →
      (predict db mid inp u key del el).1 = db) ∧
    ((∀ m ∈ db.model_trainings, ¬(m.id = mid ∧ m.user_id = u.id)) →
      (predict db mid inp u key del el).2 = .error ⟨404, "Model not found"⟩) := by
  refine ⟨rfl, rfl, ?_, ?_⟩
  · intro h
    show ({ db with deployed_models := incUsage db.deployed_models mid u.id } : DB) = db
    rw [incUsage_eq_of_no_match db.deployed_models mid u.id h]
  · intro h
    show test_model { db with
      deployed_models := incUsage db.deployed_models mid u.id } mid inp u key del el = _
    unfold test_model
    rw [List.find?_eq_none.mpr (fun m hm => by simpa using h m hm)]

/-- C2 counterexample: with a deployment whose usage_count is 0 and the
inference key unset, a Predict request fails with InternalError (500)
yet leaves the deployment's usage_count incremented to 1 — the failed
request changed the caller's stored state. -/
def userC2 : UserRec := ⟨"u1", "alice@example.com", "Alice", hash_password "pw"⟩

def trainingC2 : TrainingRec :=
  ⟨"m1", "model", "u1", "ds1", "completed", "prompt", []⟩

def depC2 : DeployedRec :=
  ⟨"dep1", "model-api", "u1", "m1", "/models/m1/predict", "active", 0⟩

def dbC2 : DB := ⟨[userC2], [], [trainingC2], [depC2]⟩

theorem spec_c2_counterexample :
    depC2.usage_count = 0 ∧
    (predict dbC2 "m1" "hi" userC2 none (.success "out") 0).2 =
      .error ⟨500, "Google API key not configured"⟩ ∧
    (predict dbC2 "m1" "hi" userC2 none (.success "out") 0).1.deployed_models =
      [{ depC2 with usage_count := 1 }] :=
  ⟨rfl, rfl, rfl⟩

/-- C2 amended: Predict's only store mutation is the single first-match
usage increment on deployed_models, and it is applied before the
delegate call, so it persists whether the request then succeeds or
fails (key unset or delegate failure); users, datasets and trainings
are untouched by Predict. -/
theorem spec_c2_amended (db : DB) (mid inp : String) (u : UserRec)
    (key : Option String) (del : DelegateOutcome) (el : ℚ) :
    (predict db mid inp u key del el).1.users = db.users ∧
    (predict db mid inp u key del el).1.datasets = db.datasets ∧
    (predict db mid inp u key del el).1.model_trainings = db.model_trainings ∧
    (predict db mid inp u key del el).1.deployed_models =
      incUsage db.deployed_models mid u.id ∧
    (∀ e, (predict db mid inp u key del el).2 = .error e →
      (predict db mid inp u key del el).1.deployed_models =
        incUsage db.deployed_models mid u.id) :=
  ⟨rfl, rfl, rfl, rfl, fun e he => rfl⟩

/-- A Test against an owned model with the key configured and a
successful delegate call returns the delegate's output with the
fabricated confidence. -/
theorem test_model_success (db : DB) (u : UserRec) (mid inp key out : String)
    (el : ℚ) (m : TrainingRec)
    (hfindm : db.model_trainings.find?
      (fun t => t.id == mid && t.user_id == u.id) = some m) :
    test_model db mid inp u (some key) (.success out) el = .ok ⟨out, 0.95, el⟩ := by
  unfold test_model
  rw [hfindm]

/-- One successful Predict on a store whose only matching deployment is
the freshly appended one: the deployment's counter gains 1 and the
response is the delegate's output. -/
theorem predict_fresh_step (db : DB) (u : UserRec) (mid inp key out : String)
    (el : ℚ) (dep : DeployedRec) (m : TrainingRec)
    (hfindm : db.model_trainings.find?
      (fun t => t.id == mid && t.user_id == u.id) = some m)
    (hND : ∀ d ∈ db.deployed_models, d.user_id ≠ u.id)
    (h1 : dep.training_id = mid) (h2 : dep.user_id = u.id) :
    predict { db with deployed_models := db.deployed_models ++ [dep] }
        mid inp u (some key) (.success out) el =
      ({ db with deployed_models :=
          db.deployed_models ++ [{ dep with usage_count := dep.usage_count + 1 }] },
       .ok ⟨out, 0.95, el⟩) := by
  have key1 := incUsage_append_match db.deployed_models dep mid u.id
    (fun d hd hc => hND d hd hc.2) h1 h2
  refine Prod.ext ?_ ?_
  · exact congrArg (fun l => ({ db with deployed_models := l } : DB)) key1
  · exact test_model_success _ u mid inp key out el m hfindm

/-- Two successful Predicts on a store whose only matching deployment
is the freshly appended one: its counter gains 2. -/
theorem predict_twice_fresh (db : DB) (u : UserRec)
    (mid inp1 inp2 key out1 out2 : String) (el1 el2 : ℚ)
    (dep : DeployedRec) (m : TrainingRec)
    (hfindm : db.model_trainings.find?
      (fun t => t.id == mid && t.user_id == u.id) = some m)
    (hND : ∀ d ∈ db.deployed_models, d.user_id ≠ u.id)
    (h1 : dep.training_id = mid) (h2 : dep.user_id = u.id) :
    predict (predict { db with deployed_models := db.deployed_models ++ [dep] }
        mid inp1 u (some key) (.success out1) el1).1
      mid inp2 u (some key) (.success out2) el2 =
      ({ db with deployed_models :=
          db.deployed_models ++
            [{ dep with usage_count := dep.usage_count + 1 + 1 }] },
       .ok ⟨out2, 0.95, el2⟩) := by
  rw [predict_fresh_step db u mid inp1 key out1 el1 dep m hfindm hND h1 h2]
  exact predict_fresh_step db u mid inp2 key out2 el2
    { dep with usage_count := dep.usage_count + 1 } m hfindm hND h1 h2

/-- C4: a caller with no prior deployments who deploys a model and then
issues two successful Predict calls against it ends with that
deployment's usage_count exactly 2, and the dashboard's api_calls — the
sum of usage_count over the caller's deployments — equals 2. -/
theorem spec_c4_usage_counter (db : DB) (u : UserRec)
    (mid nid key out1 out2 inp1 inp2 : String) (el1 el2 : ℚ)
    (db1 : DB) (dep : DeployedRec)
    (hND : ∀ d ∈ db.deployed_models, d.user_id ≠ u.id)
    (hdeploy : deploy_model db nid mid u = .ok (db1, dep)) :
    dep.usage_count = 0 ∧
    (∃ o1, (predict db1 mid inp1 u (some key) (.success out1) el1).2 = .ok o1) ∧
    (∃ o2, (predict (predict db1 mid inp1 u (some key) (.success out1) el1).1
        mid inp2 u (some key) (.success out2) el2).2 = .ok o2) ∧
    ((predict (predict db1 mid inp1 u (some key) (.success out1) el1).1
        mid inp2 u (some key) (.success out2) el2).1.deployed_models.find?
      (fun d => d.training_id == mid && d.user_id == u.id) =
      some { dep with usage_count := 2 }) ∧
    (get_dashboard_stats (predict (predict db1 mid inp1 u (some key)
        (.success out1) el1).1 mid inp2 u (some key) (.success out2) el2).1
      u).api_calls = 2 := by
  unfold deploy_model at hdeploy
  cases hfindm : db.model_trainings.find?
      (fun t => t.id == mid && t.user_id == u.id) with
  | none => rw [hfindm] at hdeploy; exact nomatch hdeploy
  | some m =>
    rw [hfindm] at hdeploy
    simp only [Except.ok.injEq, Prod.mk.injEq] at hdeploy
    obtain ⟨hdb1, hdep⟩ := hdeploy
    subst hdb1
    subst hdep
    have step1 := predict_fresh_step db u mid inp1 key out1 el1
      (⟨nid, m.name ++ "-api", u.id, mid,
        "/models/" ++ mid ++ "/predict", "active", 0⟩ : DeployedRec)
      m hfindm hND rfl rfl
    have step12 := predict_twice_fresh db u mid inp1 inp2 key out1 out2 el1 el2
      (⟨nid, m.name ++ "-api", u.id, mid,
        "/models/" ++ mid ++ "/predict", "active", 0⟩ : DeployedRec)
      m hfindm hND rfl rfl
    have hnomatch : ∀ d ∈ db.deployed_models,
        ¬((d.training_id == mid && d.user_id == u.id) = true) := by
      intro d hd
      simp only [Bool.and_eq_true, beq_iff_eq, not_and]
      exact fun _ hx => hND d hd hx
    have hfil : db.deployed_models.filter (fun d => d.user_id == u.id) = [] :=
      List.filter_eq_nil_iff.mpr (fun d hd => by simpa using hND d hd)
    refine ⟨rfl, ⟨_, by rw [step1]⟩, ⟨_, by rw [step12]⟩, ?_, ?_⟩
    · rw [step12]
      show (db.deployed_models ++ _).find? _ = _
      rw [List.find?_append, List.find?_eq_none.mpr hnomatch, Option.none_or,
        List.find?_cons_of_pos _ (by simp)]
    · rw [step12]
      unfold get_dashboard_stats
      simp [List.filter_append, hfil]

/-- Concrete scenario for the C4 witness: one user, one completed
training, no deployments yet. -/
def userC4 : UserRec := ⟨"u1", "alice@example.com", "Alice", hash_password "pw"⟩

def trainingC4 : TrainingRec :=
  ⟨"m1", "model", "u1", "ds1", "completed", "prompt", []⟩

def dbC4 : DB := ⟨[userC4], [], [trainingC4], []⟩

def depC4 : DeployedRec :=
  ⟨"dep1", "model-api", "u1", "m1", "/models/m1/predict", "active", 0⟩

def db1C4 : DB := ⟨[userC4], [], [trainingC4], [depC4]⟩

/-- C4 witness: in the concrete scenario, after deploy and two
successful predicts the dashboard reports api_calls = 2. -/
theorem spec_c4_witness :
    (get_dashboard_stats (predict (predict db1C4 "m1" "i1" userC4 (some "k")
        (.success "o1") 0).1 "m1" "i2" userC4 (some "k") (.success "o2") 0).1
      userC4).api_calls = 2 :=
  (spec_c4_usage_counter dbC4 userC4 "m1" "dep1" "k" "o1" "o2" "i1" "i2" 0 0
    db1C4 depC4 (fun d hd => absurd hd (List.not_mem_nil d)) rfl).2.2.2.2
